import Mathlib

/-!
Shallow embedding of the authentication / authorization / audit subsystem of
the School-College Management API backend (src/main.py, src/schemas.py).

Time is modelled in whole seconds as a natural number.  The external
collaborators (the jose JWT library, the passlib bcrypt hasher and the
database module, none of which belong to src/) are modelled from the spec;
every such definition carries a doc comment saying so.  All repository-owned
logic (header parsing, role gating, register, login, audit middleware) is
translated directly from src/main.py.
-/

namespace SchoolApi

/-- An HTTPException as raised by the handlers: a status code and a detail
message, surfaced to the caller as a structured error body. -/
structure ErrorResponse where
  status : Nat
  detail : String
deriving DecidableEq, Repr

/-- The claims carried by an access token: sub (the email), role, ref_id and
the expiry instant, mirroring the dict passed to jwt.encode in main.py
(lines 88-92 build it as data plus an exp entry). -/
structure Claims where
  sub : String
  role : String
  ref_id : Option String
  exp : Nat
deriving DecidableEq, Repr

/-- A signed token: its claims plus the signature tag computed from the
signing key.  The string serialisation that jose performs is modelled by the
token environment of a request (see lookupToken). -/
structure Token where
  claims : Claims
  sig : Nat
deriving DecidableEq, Repr

/-- An inbound HTTP request, reduced to the fields the subsystem reads: the
Authorization header, the path, the method and the client address. -/
structure Request where
  authorization : Option String
  path : String
  method : String
  client : Option String
deriving DecidableEq, Repr

/-- An outbound HTTP response, reduced to its status code. -/
structure Response where
  status : Nat
deriving DecidableEq, Repr

/-- A numeric code for a string, used by the modelled MAC and digest.  Only
injectivity-in-practice on the tiny inputs of the witnesses matters; the
theorems never rely on collision freedom. -/
def strCode (s : String) : Nat :=
  s.data.foldl (fun a c => a * 131 + c.toNat + 1) 7

/-- ASCII lower-casing of one character, as str.lower acts on the ASCII
header values the code compares. -/
def asciiLower (c : Char) : Char :=
  if 65 ≤ c.toNat ∧ c.toNat ≤ 90 then Char.ofNat (c.toNat + 32) else c

/-- Whether the second character list is a prefix of the first, as
str.startswith checks. -/
def charsStartWith : List Char → List Char → Bool
  | _, [] => true
  | [], _ :: _ => false
  | a :: as, b :: bs => a == b && charsStartWith as bs

/-- Everything after the first space of a character list: the second field
of str.split with maxsplit one. -/
def afterFirstSpace : List Char → List Char
  | [] => []
  | c :: cs => if c = ' ' then cs else afterFirstSpace cs

/-- The test auth.lower().startswith of main.py line 98: the header is of
bearer form, with a case-insensitive scheme.  An absent or empty header
fails this test exactly as the falsiness test of the same line. -/
def headerIsBearer (auth : String) : Bool :=
  charsStartWith (auth.data.map asciiLower) (("bearer ").data)

/-- Modelled from the spec: the symmetric signing primitive (HMAC-SHA256
equivalent) used by the jose library, which is an external collaborator and
not part of src/.  A token verifies exactly when recomputing the tag over
its claims with the key reproduces the stored tag. -/
def mac (key : String) (c : Claims) : Nat :=
  strCode key * 1000003 + strCode c.sub * 97 + strCode c.role * 89 +
    (match c.ref_id with
     | none => 0
     | some r => strCode r + 1) * 83 + c.exp

/-- ACCESS_TOKEN_EXPIRE_MINUTES = 60 * 24 from main.py line 35: the fixed
validity window of 24 hours, expressed in minutes. -/
def ACCESS_TOKEN_EXPIRE_MINUTES : Nat := 60 * 24

/-- create_access_token from main.py lines 88-92: copies the data claims,
sets exp to now plus the expires_delta (defaulting to
ACCESS_TOKEN_EXPIRE_MINUTES) and signs with the key.  The expires_delta,
like the timedelta argument in the source, is in seconds here and no caller
in the repository ever passes one. -/
def create_access_token (key : String) (now : Nat) (sub role : String)
    (ref_id : Option String) (expires_delta : Option Nat) : Token :=
  let expire := now + expires_delta.getD (ACCESS_TOKEN_EXPIRE_MINUTES * 60)
  let c : Claims := { sub := sub, role := role, ref_id := ref_id, exp := expire }
  { claims := c, sig := mac key c }

/-- Modelled from the spec: jwt.decode of the jose library (external, not in
src/), per section 4.2 of the spec: checks signature validity and that
now < expiry; returns the decoded claims on success and a generic invalid
outcome (none, the JWTError branch of main.py line 104) otherwise. -/
def jwt_decode (key : String) (now : Nat) (t : Token) : Option Claims :=
  if t.sig = mac key t.claims ∧ now < t.claims.exp then some t.claims else none

/-- The serialisation environment of a request: which header token strings
deserialise to which tokens.  A string not bound here is one jose cannot
parse at all (also a JWTError, hence Anonymous). -/
def lookupToken (env : List (String × Token)) (s : String) : Option Token :=
  (env.find? (fun p => p.1 = s)).map (fun p => p.2)

/-- The token part of an Authorization header value: everything after the
first space, as computed by auth.split with maxsplit one and index one in
main.py line 100. -/
def bearerToken (auth : String) : String :=
  String.mk (afterFirstSpace auth.data)

/-- get_current_user from main.py lines 95-105: returns the decoded claims
when the header is present, of bearer form (case-insensitive scheme, as
auth.lower().startswith checks) and carries a token that verifies; returns
none (Anonymous) in every other case, never raising.  An absent or empty
header fails the startsWith test exactly as the falsiness test in line 98. -/
def get_current_user (key : String) (now : Nat) (env : List (String × Token))
    (req : Request) : Option Claims :=
  match req.authorization with
  | none => none
  | some auth =>
    if headerIsBearer auth then
      match lookupToken env (bearerToken auth) with
      | none => none
      | some t => jwt_decode key now t
    else none

/-- The outcome of the role-gate dependency: raise 401, raise 403, or pass
the resolved user through. -/
inductive GateResult where
  | unauthorized : GateResult
  | forbidden : GateResult
  | ok : Claims → GateResult
deriving DecidableEq, Repr

/-- require_roles from main.py lines 108-115: 401 when the resolved user is
None, 403 when the role tuple is non-empty and the user role is not a
member, otherwise the user is returned to the handler. -/
def require_roles (roles : List String) (user : Option Claims) : GateResult :=
  match user with
  | none => GateResult.unauthorized
  | some u =>
    if roles ≠ [] ∧ u.role ∉ roles then GateResult.forbidden else GateResult.ok u

/-- An endpoint guarded by require_roles over the identity the resolver
yields: the handler body runs only when the gate passes, exactly as a
FastAPI dependency halts the request by raising before the handler. -/
def runGuarded (roles : List String) (key : String) (now : Nat)
    (env : List (String × Token)) (req : Request)
    (handler : Claims → Response) : Response :=
  match require_roles roles (get_current_user key now env req) with
  | GateResult.unauthorized => { status := 401 }
  | GateResult.forbidden => { status := 403 }
  | GateResult.ok u => handler u

/-- Modelled from the spec: the bcrypt hash string of passlib (external, not
in src/), section 4.1: a deterministic-format salted digest whose stored
form records the randomly drawn salt next to the digest, so that the same
plaintext hashes differently under different salts while verification can
recompute the digest under the stored salt. -/
structure HashString where
  salt : Nat
  dig : Nat
deriving DecidableEq, Repr

/-- Modelled from the spec: the one-way digest core of the bcrypt hasher
(external, not in src/); concrete so that verification is executable. -/
def digest (salt : Nat) (password : String) : Nat :=
  strCode password * 2654435761 + salt * 40503 + 97

/-- hash_password from main.py lines 80-81, with the salt that passlib draws
internally made an explicit argument: the stored hash records the salt and
the digest of the password under it. -/
def hash_password (salt : Nat) (password : String) : HashString :=
  { salt := salt, dig := digest salt password }

/-- verify_password from main.py lines 84-85: recomputes the digest of the
plaintext under the stored salt and compares. -/
def verify_password (plain : String) (h : HashString) : Bool :=
  digest h.salt plain == h.dig

/-- Modelled from the spec: the AuthUser credential schema (imported from
schemas in main.py but absent from src/schemas.py), per the data model of
the spec: email, password_hash, role and an optional ref_id. -/
structure AuthUser where
  email : String
  password_hash : HashString
  role : String
  ref_id : Option String
deriving DecidableEq, Repr

/-- A credential document as stored: the AuthUser fields plus the _id the
store assigns on insertion. -/
structure StoredUser where
  _id : String
  email : String
  password_hash : HashString
  role : String
  ref_id : Option String
deriving DecidableEq, Repr

/-- The authuser collection of the Record Store, with the counter from which
fresh document ids are drawn. -/
structure Store where
  authusers : List StoredUser
  nextId : Nat
deriving DecidableEq, Repr

/-- The identifier the store assigns to the n-th inserted document. -/
def freshId (n : Nat) : String := "oid" ++ toString n

/-- find_one on the authuser collection by email (main.py lines 205 and
217): the first stored document with that email, if any. -/
def find_one_email (docs : List StoredUser) (email : String) : Option StoredUser :=
  docs.find? (fun u => u.email = email)

/-- Modelled from the spec: create_document of the database module (imported
in main.py line 13 but not in src/), per the Record Store contract
create(collection, document) -> id: inserts the document under a fresh _id
and returns that id. -/
def create_document (s : Store) (doc : AuthUser) : String × Store :=
  let uid := freshId s.nextId
  (uid,
   { authusers := s.authusers ++
       [{ _id := uid, email := doc.email, password_hash := doc.password_hash,
          role := doc.role, ref_id := doc.ref_id }],
     nextId := s.nextId + 1 })

/-- The HTTPException raised by register and login when db is None
(main.py lines 204 and 216): the generic store-unavailable error. -/
def databaseNotAvailable : ErrorResponse :=
  { status := 500, detail := "Database not available" }

/-- The register payload: email, password, role and optional ref_id
(main.py lines 68-72). -/
structure RegisterPayload where
  email : String
  password : String
  role : String
  ref_id : Option String
deriving DecidableEq, Repr

/-- The login payload: email and password (main.py lines 75-77). -/
structure LoginPayload where
  email : String
  password : String
deriving DecidableEq, Repr

/-- register_user from main.py lines 201-210, with the salt that passlib
draws made explicit.  Returns the response (the new id, or the raised
HTTPException) together with the store after the call: a raised exception
leaves the store exactly as it was. -/
def register_user (dbo : Option Store) (salt : Nat) (p : RegisterPayload) :
    Except ErrorResponse String × Option Store :=
  match dbo with
  | none => (Except.error databaseNotAvailable, none)
  | some store =>
    match find_one_email store.authusers p.email with
    | some _ =>
      (Except.error { status := 400, detail := "Email already registered" }, some store)
    | none =>
      let doc : AuthUser :=
        { email := p.email, password_hash := hash_password salt p.password,
          role := p.role, ref_id := p.ref_id }
      let r := create_document store doc
      (Except.ok r.1, some r.2)

/-- login from main.py lines 213-227: 401 with one fixed message both when
the email is not found and when the password does not verify; on success a
token over sub = email, role, and ref_id = str of the document _id when that
is truthy, else the stored ref_id. -/
def login (dbo : Option Store) (key : String) (now : Nat) (p : LoginPayload) :
    Except ErrorResponse Token :=
  match dbo with
  | none => Except.error databaseNotAvailable
  | some store =>
    match find_one_email store.authusers p.email with
    | none => Except.error { status := 401, detail := "Invalid credentials" }
    | some user =>
      if verify_password p.password user.password_hash then
        Except.ok (create_access_token key now user.email user.role
          (if user._id ≠ "" then some user._id else user.ref_id) none)
      else
        Except.error { status := 401, detail := "Invalid credentials" }

/-- The AuditLog document built by the middleware (main.py lines 136-144):
actor ref_id and role when an identity resolved, the fixed action label, the
path, method, response status and client address. -/
structure AuditLog where
  user_id : Option String
  role : Option String
  action : String
  path : String
  method : String
  status : Nat
  ip : Option String
deriving DecidableEq, Repr

/-- An observable event of one request's lifecycle, in chronological order:
the downstream handler completing with a status, and an audit entry being
persisted. -/
inductive Event where
  | handlerDone : Nat → Event
  | auditWrite : AuditLog → Event
deriving DecidableEq, Repr

/-- Whether an event is the persistence of an audit entry. -/
def isAuditWrite : Event → Bool
  | Event.auditWrite _ => true
  | _ => false

/-- audit_middleware from main.py lines 125-148: resolves the identity
(swallowing any resolution failure), awaits the downstream handler, and
afterwards, when db is not None, persists one AuditLog with the actual
response status; a persistence failure (writeFails) is swallowed.  The
returned trace lists the lifecycle events in the order they happen: the
handler always completes first, and the write, when it happens at all,
comes strictly after. -/
def audit_middleware (key : String) (now : Nat) (env : List (String × Token))
    (dbAvailable : Bool) (writeFails : Bool) (req : Request)
    (handler : Request → Response) : Response × List Event :=
  let user := get_current_user key now env req
  let response := handler req
  let entry : AuditLog :=
    { user_id := user.bind (fun c => c.ref_id),
      role := user.map (fun c => c.role),
      action := "request", path := req.path, method := req.method,
      status := response.status, ip := req.client }
  let trace : List Event :=
    if dbAvailable && !writeFails then
      [Event.handlerDone response.status, Event.auditWrite entry]
    else
      [Event.handlerDone response.status]
  (response, trace)

/-- A fixed signing key for the concrete witnesses. -/
def wKey : String := "k"

/-- Claims of a teacher-role token used by the witnesses. -/
def wTeacherClaims : Claims :=
  { sub := "t@x", role := "teacher", ref_id := none, exp := 86400 }

/-- Claims of a student-role token used by the witnesses. -/
def wStudentClaims : Claims :=
  { sub := "s@x", role := "student", ref_id := none, exp := 86400 }

/-- A token environment binding two well-signed token strings. -/
def wEnv : List (String × Token) :=
  [("tt", { claims := wTeacherClaims, sig := mac wKey wTeacherClaims }),
   ("ts", { claims := wStudentClaims, sig := mac wKey wStudentClaims })]

/-- A request without an Authorization header. -/
def wAnonReq : Request :=
  { authorization := none, path := "/x", method := "GET", client := none }

/-- A request bearing the teacher token. -/
def wTeacherReq : Request :=
  { authorization := some ("Bearer tt"), path := "/x", method := "GET", client := none }

/-- A request bearing the student token. -/
def wStudentReq : Request :=
  { authorization := some ("Bearer ts"), path := "/x", method := "GET", client := none }

/-- A request with a malformed Authorization header. -/
def wMalformedReq : Request :=
  { authorization := some ("Token tt"), path := "/x", method := "GET", client := none }

/-- A stored credential for the register and login witnesses: its document
id oid7 differs from its stored ref_id teacher42, which is what separates
the claimed from the actual ref_id claim of the issued token. -/
def wStoredUser : StoredUser :=
  { _id := "oid7", email := "a@x.com", password_hash := hash_password 5 ("pw1"),
    role := "teacher", ref_id := some ("teacher42") }

/-- A one-credential store for the register and login witnesses. -/
def wStore : Store := { authusers := [wStoredUser], nextId := 8 }

/-- C1: the guard built by require_roles sends an Anonymous resolution to
Unauthorized 401 without running the handler, sends a resolved identity
whose role is outside a non-empty role set to Forbidden 403 without running
the handler, and otherwise passes the resolved identity to the handler. -/
theorem role_gate_behaviour (roles : List String) (key : String) (now : Nat)
    (env : List (String × Token)) (req : Request) :
    (get_current_user key now env req = none →
      ∀ handler : Claims → Response,
        runGuarded roles key now env req handler = { status := 401 }) ∧
    (∀ u : Claims, get_current_user key now env req = some u → roles ≠ [] →
      u.role ∉ roles →
      ∀ handler : Claims → Response,
        runGuarded roles key now env req handler = { status := 403 }) ∧
    (∀ u : Claims, get_current_user key now env req = some u →
      (roles = [] ∨ u.role ∈ roles) →
      ∀ handler : Claims → Response,
        runGuarded roles key now env req handler = handler u) := by
  refine ⟨?_, ?_, ?_⟩
  · intro h handler
    simp [runGuarded, require_roles, h]
  · intro u hu hne hnm handler
    simp [runGuarded, require_roles, hu, hne, hnm]
  · intro u hu hor handler
    rcases hor with h | h
    · simp [runGuarded, require_roles, hu, h]
    · simp [runGuarded, require_roles, hu, h]

/-- Witness for C1: with roles = teacher, an anonymous request gets 401, a
student-token request gets 403, and a teacher-token request reaches the
handler. -/
theorem role_gate_behaviour_witness :
    runGuarded ["teacher"] wKey 0 wEnv wAnonReq (fun _ => { status := 200 }) =
      { status := 401 } ∧
    runGuarded ["teacher"] wKey 0 wEnv wStudentReq (fun _ => { status := 200 }) =
      { status := 403 } ∧
    runGuarded ["teacher"] wKey 0 wEnv wTeacherReq (fun _ => { status := 200 }) =
      { status := 200 } :=
  ⟨(role_gate_behaviour ["teacher"] wKey 0 wEnv wAnonReq).1 (by decide) _,
   (role_gate_behaviour ["teacher"] wKey 0 wEnv wStudentReq).2.1 wStudentClaims
     (by decide) (by decide) (by decide) _,
   (role_gate_behaviour ["teacher"] wKey 0 wEnv wTeacherReq).2.2 wTeacherClaims
     (by decide) (Or.inr (by decide)) _⟩

/-- C2: identity resolution is a total function; it yields Anonymous when
the Authorization header is absent, when the header is not of bearer form,
when the token string does not deserialise, and when the token fails
signature or expiry verification; when the token verifies it yields exactly
the decoded claims (sub, role, ref_id). -/
theorem identity_resolution_total (key : String) (now : Nat)
    (env : List (String × Token)) (req : Request) :
    (req.authorization = none → get_current_user key now env req = none) ∧
    (∀ auth : String, req.authorization = some auth →
      headerIsBearer auth = false →
      get_current_user key now env req = none) ∧
    (∀ auth : String, req.authorization = some auth →
      headerIsBearer auth = true →
      lookupToken env (bearerToken auth) = none →
      get_current_user key now env req = none) ∧
    (∀ (auth : String) (t : Token), req.authorization = some auth →
      headerIsBearer auth = true →
      lookupToken env (bearerToken auth) = some t →
      jwt_decode key now t = none →
      get_current_user key now env req = none) ∧
    (∀ (auth : String) (t : Token) (c : Claims), req.authorization = some auth →
      headerIsBearer auth = true →
      lookupToken env (bearerToken auth) = some t →
      jwt_decode key now t = some c →
      get_current_user key now env req = some c) := by
  refine ⟨?_, ?_, ?_, ?_, ?_⟩
  · intro h
    simp [get_current_user, h]
  · intro auth ha hb
    simp [get_current_user, ha, hb]
  · intro auth ha hb hl
    simp [get_current_user, ha, hb, hl]
  · intro auth t ha hb hl hd
    simp [get_current_user, ha, hb, hl, hd]
  · intro auth t c ha hb hl hd
    simp [get_current_user, ha, hb, hl, hd]

/-- Witness for C2: on the concrete environment, a missing header, a
malformed header, an unknown token string and a tampered token all resolve
to Anonymous, and a verifying teacher token resolves to its claims. -/
theorem identity_resolution_total_witness :
    get_current_user wKey 0 wEnv wAnonReq = none ∧
    get_current_user wKey 0 wEnv wMalformedReq = none ∧
    get_current_user wKey 0 wEnv
      { authorization := some ("Bearer nosuch"), path := "/x", method := "GET",
        client := none } = none ∧
    get_current_user wKey 0
      [(("bad"), { claims := wTeacherClaims, sig := mac wKey wTeacherClaims + 1 })]
      { authorization := some ("Bearer bad"), path := "/x", method := "GET",
        client := none } = none ∧
    get_current_user wKey 0 wEnv wTeacherReq = some wTeacherClaims :=
  ⟨(identity_resolution_total wKey 0 wEnv wAnonReq).1 (by decide),
   (identity_resolution_total wKey 0 wEnv wMalformedReq).2.1 ("Token tt")
     (by decide) (by decide),
   (identity_resolution_total wKey 0 wEnv
       { authorization := some ("Bearer nosuch"), path := "/x", method := "GET",
         client := none }).2.2.1 ("Bearer nosuch") (by decide) (by decide) (by decide),
   (identity_resolution_total wKey 0
       [(("bad"), { claims := wTeacherClaims, sig := mac wKey wTeacherClaims + 1 })]
       { authorization := some ("Bearer bad"), path := "/x", method := "GET",
         client := none }).2.2.2.1 ("Bearer bad")
     { claims := wTeacherClaims, sig := mac wKey wTeacherClaims + 1 }
     (by decide) (by decide) (by decide) (by decide),
   (identity_resolution_total wKey 0 wEnv wTeacherReq).2.2.2.2 ("Bearer tt")
     { claims := wTeacherClaims, sig := mac wKey wTeacherClaims } wTeacherClaims
     (by decide) (by decide) (by decide) (by decide)⟩

/-- C3: a token issued at T (by the only issuance path, which passes no
expiry override) carries exp = T + 24 hours, verifies at any instant in
the window [T, T + 24h), and is rejected at or after T + 24h. -/
theorem token_validity_window (key sub role : String) (rid : Option String)
    (T t : Nat) :
    (create_access_token key T sub role rid none).claims.exp = T + 24 * 60 * 60 ∧
    (T ≤ t → t < T + 24 * 60 * 60 →
      jwt_decode key t (create_access_token key T sub role rid none) =
        some (create_access_token key T sub role rid none).claims) ∧
    (T + 24 * 60 * 60 ≤ t →
      jwt_decode key t (create_access_token key T sub role rid none) = none) := by
  refine ⟨?_, fun hT hlt => ?_, fun hge => ?_⟩
  · simp [create_access_token, ACCESS_TOKEN_EXPIRE_MINUTES]
  · have h : t < T + 60 * 24 * 60 := by omega
    simp [jwt_decode, create_access_token, ACCESS_TOKEN_EXPIRE_MINUTES, h]
  · have h : ¬ t < T + 60 * 24 * 60 := by omega
    simp [jwt_decode, create_access_token, ACCESS_TOKEN_EXPIRE_MINUTES, h]

/-- Witness for C3: a token issued at time 0 has exp 86400, verifies at
time 86399 and is rejected at time 86400. -/
theorem token_validity_window_witness :
    (create_access_token wKey 0 ("a@x") ("admin") none none).claims.exp =
      0 + 24 * 60 * 60 ∧
    jwt_decode wKey 86399 (create_access_token wKey 0 ("a@x") ("admin") none none) =
      some (create_access_token wKey 0 ("a@x") ("admin") none none).claims ∧
    jwt_decode wKey 86400 (create_access_token wKey 0 ("a@x") ("admin") none none) =
      none :=
  ⟨(token_validity_window wKey ("a@x") ("admin") none 0 86399).1,
   (token_validity_window wKey ("a@x") ("admin") none 0 86399).2.1
     (by decide) (by decide),
   (token_validity_window wKey ("a@x") ("admin") none 0 86400).2.2 (by decide)⟩

/-- C4 counterexample: logging in against a stored credential whose document
id is oid7 and whose stored ref_id field is teacher42 issues a token whose
ref_id claim is oid7, the document id, not the stored ref_id. -/
theorem login_ref_id_counterexample :
    login (some wStore) wKey 0 { email := "a@x.com", password := "pw1" } =
      Except.ok (create_access_token wKey 0 ("a@x.com") ("teacher")
        (some ("oid7")) none) ∧
    wStoredUser.ref_id = some ("teacher42") ∧
    (create_access_token wKey 0 ("a@x.com") ("teacher") (some ("oid7"))
        none).claims.ref_id ≠ wStoredUser.ref_id := by
  refine ⟨rfl, rfl, ?_⟩
  decide

/-- C4 amended: a successful login issues a token whose decoded claims carry
sub = the credential email, role = the credential role, and ref_id = the
stored document id whenever that id is non-empty, falling back to the stored
ref_id field only for an empty document id. -/
theorem login_token_claims (store : Store) (key : String) (now : Nat)
    (p : LoginPayload) (u : StoredUser)
    (hf : find_one_email store.authusers p.email = some u)
    (hv : verify_password p.password u.password_hash = true) :
    login (some store) key now p =
      Except.ok (create_access_token key now u.email u.role
        (if u._id ≠ "" then some u._id else u.ref_id) none) ∧
    ∀ tok : Token, login (some store) key now p = Except.ok tok →
      tok.claims.sub = u.email ∧ tok.claims.role = u.role ∧
      tok.claims.ref_id = (if u._id ≠ "" then some u._id else u.ref_id) := by
  have h1 : login (some store) key now p =
      Except.ok (create_access_token key now u.email u.role
        (if u._id ≠ "" then some u._id else u.ref_id) none) := by
    simp [login, hf, hv]
  refine ⟨h1, ?_⟩
  intro tok htok
  rw [h1] at htok
  injection htok with h2
  subst h2
  refine ⟨?_, ?_, ?_⟩ <;> simp [create_access_token]

/-- Witness for C4: on the concrete one-credential store, login with the
right password issues exactly the token over the document id. -/
theorem login_token_claims_witness :
    find_one_email wStore.authusers ("a@x.com") = some wStoredUser ∧
    verify_password ("pw1") wStoredUser.password_hash = true ∧
    login (some wStore) wKey 0 { email := "a@x.com", password := "pw1" } =
      Except.ok (create_access_token wKey 0 wStoredUser.email wStoredUser.role
        (if wStoredUser._id ≠ "" then some wStoredUser._id else wStoredUser.ref_id)
        none) :=
  ⟨by decide, by decide,
   (login_token_claims wStore wKey 0 { email := "a@x.com", password := "pw1" }
     wStoredUser (by decide) (by decide)).1⟩

/-- C5: with the store available, login answers with the one 401 Invalid
credentials error both when the email is not registered and when the
password fails verification for a registered email: the two failures are
byte-identical to the caller. -/
theorem login_failure_indistinguishable (store : Store) (key : String)
    (now : Nat) (email pw : String) :
    (find_one_email store.authusers email = none →
      login (some store) key now { email := email, password := pw } =
        Except.error { status := 401, detail := "Invalid credentials" }) ∧
    (∀ u : StoredUser, find_one_email store.authusers email = some u →
      verify_password pw u.password_hash = false →
      login (some store) key now { email := email, password := pw } =
        Except.error { status := 401, detail := "Invalid credentials" }) := by
  constructor
  · intro h
    simp [login, h]
  · intro u hu hv
    simp [login, hu, hv]

/-- Witness for C5: an unregistered email and a wrong password for the
registered email produce the same concrete error. -/
theorem login_failure_indistinguishable_witness :
    login (some wStore) wKey 0 { email := "z@x.com", password := "pw1" } =
      Except.error { status := 401, detail := "Invalid credentials" } ∧
    login (some wStore) wKey 0 { email := "a@x.com", password := "wrong" } =
      Except.error { status := 401, detail := "Invalid credentials" } :=
  ⟨(login_failure_indistinguishable wStore wKey 0 ("z@x.com") ("pw1")).1
     (by decide),
   (login_failure_indistinguishable wStore wKey 0 ("a@x.com") ("wrong")).2
     wStoredUser (by decide) (by decide)⟩

/-- C6: with the store available, registration fails with 400 Email already
registered exactly when a credential with the payload email is stored; when
none is, it succeeds and answers with the fresh identifier the store
assigns to the new credential. -/
theorem register_conflict_iff (store : Store) (salt : Nat) (p : RegisterPayload) :
    ((register_user (some store) salt p).1 =
        Except.error { status := 400, detail := "Email already registered" } ↔
      (find_one_email store.authusers p.email).isSome = true) ∧
    (find_one_email store.authusers p.email = none →
      (register_user (some store) salt p).1 = Except.ok (freshId store.nextId)) := by
  constructor
  · cases hf : find_one_email store.authusers p.email with
    | none => simp [register_user, hf, create_document]
    | some u => simp [register_user, hf]
  · intro h
    simp [register_user, h, create_document]

/-- Witness for C6: registering the stored email fails with 400 while a
fresh email succeeds with the next identifier. -/
theorem register_conflict_iff_witness :
    (register_user (some wStore) 3
        { email := "a@x.com", password := "x", role := "teacher", ref_id := none }).1 =
      Except.error { status := 400, detail := "Email already registered" } ∧
    (register_user (some wStore) 3
        { email := "b@x.com", password := "x", role := "student", ref_id := none }).1 =
      Except.ok (freshId wStore.nextId) :=
  ⟨(register_conflict_iff wStore 3
      { email := "a@x.com", password := "x", role := "teacher", ref_id := none }).1.mpr
      (by decide),
   (register_conflict_iff wStore 3
      { email := "b@x.com", password := "x", role := "student", ref_id := none }).2
      (by decide)⟩

/-- C7 amended: when the audit store is available and the write does not
fail, one request produces exactly one audit entry, its status field equals
the status of the response returned to the caller, and the write happens
strictly after the downstream handler completes; when the store is
unavailable, or the write fails, the failure is swallowed and no entry is
produced. -/
theorem audit_middleware_one_entry (key : String) (now : Nat)
    (env : List (String × Token)) (req : Request)
    (handler : Request → Response) (writeFails : Bool) :
    (∃ e : AuditLog,
      (audit_middleware key now env true false req handler).2 =
        [Event.handlerDone (audit_middleware key now env true false req handler).1.status,
         Event.auditWrite e] ∧
      e.status = (audit_middleware key now env true false req handler).1.status) ∧
    (audit_middleware key now env false writeFails req handler).2.countP isAuditWrite = 0 ∧
    (audit_middleware key now env true true req handler).2.countP isAuditWrite = 0 ∧
    (audit_middleware key now env true false req handler).1 = handler req := by
  refine ⟨⟨{ user_id := (get_current_user key now env req).bind (fun c => c.ref_id),
             role := (get_current_user key now env req).map (fun c => c.role),
             action := "request", path := req.path, method := req.method,
             status := (handler req).status, ip := req.client }, ?_, ?_⟩,
         ?_, ?_, ?_⟩ <;>
    simp [audit_middleware, isAuditWrite, List.countP_cons, List.countP_nil]

/-- C7 counterexample: with the store unavailable, a request produces no
audit entry at all, refuting that every request produces exactly one. -/
theorem audit_middleware_counterexample :
    ¬ ((audit_middleware wKey 0 wEnv false false wAnonReq
        (fun _ => { status := 200 })).2.countP isAuditWrite = 1) := by
  decide

/-- C8: with the store unavailable, register and login both surface the one
generic store-unavailable error, a fixed status and detail exposing no
internal state, and neither operation succeeds. -/
theorem store_unavailable_generic_error (key : String) (now salt : Nat)
    (rp : RegisterPayload) (lp : LoginPayload) :
    register_user none salt rp = (Except.error databaseNotAvailable, none) ∧
    login none key now lp = Except.error databaseNotAvailable :=
  ⟨rfl, rfl⟩

/-- C9: verification succeeds on the hash of the same plaintext whatever
salt was drawn, while two calls drawing different salts store different
hash strings. -/
theorem verify_of_hash_roundtrip (p : String) (s1 s2 : Nat) (h : s1 ≠ s2) :
    verify_password p (hash_password s1 p) = true ∧
    hash_password s1 p ≠ hash_password s2 p := by
  constructor
  · simp [verify_password, hash_password]
  · intro hc
    apply h
    have h2 := congrArg HashString.salt hc
    simpa [hash_password] using h2

/-- Witness for C9: salts 0 and 1 over one plaintext. -/
theorem verify_of_hash_roundtrip_witness :
    (0 : Nat) ≠ 1 ∧
    verify_password ("pw") (hash_password 0 ("pw")) = true ∧
    hash_password 0 ("pw") ≠ hash_password 1 ("pw") :=
  ⟨by decide, (verify_of_hash_roundtrip ("pw") 0 1 (by decide)).1,
   (verify_of_hash_roundtrip ("pw") 0 1 (by decide)).2⟩

/-- C10: when registration is rejected because the email is already stored,
the call returns the 400 error and the store after the call is exactly the
store before it: no document inserted, none modified. -/
theorem register_conflict_preserves_store (store : Store) (salt : Nat)
    (p : RegisterPayload) (u : StoredUser)
    (h : find_one_email store.authusers p.email = some u) :
    register_user (some store) salt p =
      (Except.error { status := 400, detail := "Email already registered" },
       some store) := by
  simp [register_user, h]

/-- Witness for C10: re-registering the stored email leaves the concrete
store untouched. -/
theorem register_conflict_preserves_store_witness :
    find_one_email wStore.authusers ("a@x.com") = some wStoredUser ∧
    register_user (some wStore) 3
        { email := "a@x.com", password := "x", role := "teacher", ref_id := none } =
      (Except.error { status := 400, detail := "Email already registered" },
       some wStore) :=
  ⟨by decide,
   register_conflict_preserves_store wStore 3
     { email := "a@x.com", password := "x", role := "teacher", ref_id := none }
     wStoredUser (by decide)⟩

end SchoolApi
